import Mathlib

/-!
Shallow embedding of `megatron_patch/model/mixtral/moe/moe_layer.py`.

The file under verification defines:
  * `BaseMoELayer.__init__` (lines 39-53): expert partitioning across the
    expert-parallel group (divisibility assert, `num_local_experts`,
    `local_expert_indices`);
  * `MoELayer.__init__` (lines 67-83): expert-bank strategy selection
    (`GroupedMLP` when `config.moe_grouped_gemm`, otherwise an
    `isinstance(submodules, MLPSubmodules)` assert and `SequentialMLP`),
    and the `enable_moe_load_balance` flag derived from
    `args.load_balance_interval is not None`;
  * `MoELayer.forward` (lines 86-124): the orchestration
    router → token_permutation → (conditional) update_load → experts →
    token_unpermutation;
  * `apply_load_balance` / `print_token_dist` (lines 126-153): recursive
    traversals over `model[0]`'s module tree that invoke
    `load_balancer.balance_load` resp. `load_balancer.print_token_dist`
    on every `MoELayer` child encountered.

The router, dispatcher, experts and load balancer are external collaborators
of this file (imported modules); the embedding treats them as opaque
functions, and instruments `forward` with a trace of the calls it makes so
that call ordering and call arguments are provable properties.
-/

/-! ### Expert partitioning (`BaseMoELayer.__init__`, lines 42-50) -/

/-- Line 44: `self.num_local_experts = self.config.num_moe_experts // self.expert_parallel_size`. -/
def num_local_experts (num_moe_experts expert_parallel_size : Nat) : Nat :=
  num_moe_experts / expert_parallel_size

/-- Lines 45-50: `local_expert_indices_offset = rank * num_local_experts;
self.local_expert_indices = [local_expert_indices_offset + i for i in range(num_local_experts)]`. -/
def local_expert_indices (num_moe_experts expert_parallel_size rank : Nat) : List Nat :=
  (List.range (num_local_experts num_moe_experts expert_parallel_size)).map
    (fun i => rank * num_local_experts num_moe_experts expert_parallel_size + i)

/-- The observable state produced by `BaseMoELayer.__init__`. -/
structure BaseMoELayerState where
  num_local_experts : Nat
  local_expert_indices : List Nat
deriving DecidableEq

/-- Model of `BaseMoELayer.__init__`, lines 39-50.  The Python code asserts
`config.num_moe_experts % self.expert_parallel_size == 0` (line 43); a failed
assert aborts construction, modelled by `Option.none`. -/
def baseMoELayerInit (num_moe_experts expert_parallel_size rank : Nat) :
    Option BaseMoELayerState :=
  if num_moe_experts % expert_parallel_size = 0 then
    Option.some
      { num_local_experts := num_local_experts num_moe_experts expert_parallel_size
        local_expert_indices := local_expert_indices num_moe_experts expert_parallel_size rank }
  else Option.none

/-! ### `MoELayer.__init__` (lines 67-83) -/

/-- The possible values of the `submodules` argument: an `MLPSubmodules`
instance, the default `None`, or some other object. -/
inductive Submodules where
  | mlpSubmodules
  | noneValue
  | otherObject

/-- The check `isinstance(self.submodules, MLPSubmodules)` (line 76). -/
def Submodules.isMLPSubmodules : Submodules → Bool
  | Submodules.mlpSubmodules => true
  | Submodules.noneValue => false
  | Submodules.otherObject => false

/-- Which expert-bank implementation `MoELayer.__init__` selected. -/
inductive ExpertsKind where
  | grouped
  | sequential
deriving DecidableEq

/-- The observable state produced by `MoELayer.__init__`. -/
structure MoELayerState where
  num_local_experts : Nat
  local_expert_indices : List Nat
  expertsKind : ExpertsKind
  enable_moe_load_balance : Bool
deriving DecidableEq

/-- Model of `MoELayer.__init__`, lines 67-83.  Construction runs, in order:
`BaseMoELayer.__init__` (divisibility assert), the router, then
if `config.moe_grouped_gemm` a `GroupedMLP`, otherwise
`assert isinstance(self.submodules, MLPSubmodules)` followed by a
`SequentialMLP` (lines 73-77); finally
`self.enable_moe_load_balance = args.load_balance_interval is not None`
(line 82).  A failed assert aborts construction (`Option.none`). -/
def moELayerInit (num_moe_experts expert_parallel_size rank : Nat)
    (moe_grouped_gemm : Bool) (submodules : Submodules)
    (load_balance_interval : Option Nat) : Option MoELayerState :=
  match baseMoELayerInit num_moe_experts expert_parallel_size rank with
  | Option.none => Option.none
  | Option.some base =>
    if moe_grouped_gemm then
      Option.some
        { num_local_experts := base.num_local_experts
          local_expert_indices := base.local_expert_indices
          expertsKind := ExpertsKind.grouped
          enable_moe_load_balance := load_balance_interval.isSome }
    else if Submodules.isMLPSubmodules submodules then
      Option.some
        { num_local_experts := base.num_local_experts
          local_expert_indices := base.local_expert_indices
          expertsKind := ExpertsKind.sequential
          enable_moe_load_balance := load_balance_interval.isSome }
    else Option.none

/-! ### `MoELayer.forward` (lines 86-124)

The router, token dispatcher and expert bank are external collaborators;
`forward` only composes them.  They are modelled as opaque functions over
abstract types `H` (hidden states), `S` (scores), `I` (indices), `D`
(dispatched input), `C` (tokens-per-expert counts), `G` (global-local map),
`O` (expert / layer output) and `B` (mlp bias). -/

/-- The collaborator functions `MoELayer.forward` calls:
`self.router`, `self.token_dispatcher.token_permutation`, `self.experts`
and `self.token_dispatcher.token_unpermutation`. -/
structure MoEComponents (H S I D C G O B : Type) where
  router : H → S × I
  token_permutation : H → S → I → D × C × S × I × G
  experts : D → C → O × B
  token_unpermutation : O → S → I → G → B → O × B

/-- One call made during a forward pass (or by the load-balance hook),
recorded with its arguments. -/
inductive Event (H S I D C G O B : Type) where
  | router (hidden_states : H)
  | token_permutation (hidden_states : H) (scores : S) (indices : I)
  | update_load (tokens_per_expert : C)
  | experts (dispatched_input : D) (tokens_per_expert : C)
  | token_unpermutation (expert_output : O) (scores : S) (indices : I)
      (global_local_map : G) (mlp_bias : B)
  | balance_load

/-- Whether an event is a `load_balancer.balance_load` invocation. -/
def Event.isBalanceLoad {H S I D C G O B : Type} : Event H S I D C G O B → Bool
  | Event.balance_load => true
  | _ => false

/-- Whether an event is a `load_balancer.update_load` invocation. -/
def Event.isUpdateLoad {H S I D C G O B : Type} : Event H S I D C G O B → Bool
  | Event.update_load _ => true
  | _ => false

/-- Model of `MoELayer.forward`, lines 86-124, instrumented with the trace of calls it
makes, in execution order.  Mirrors the body exactly:

    scores, indices = self.router(hidden_states)
    (dispatched_input, tokens_per_expert, scores, indices, global_local_map) =
        self.token_dispatcher.token_permutation(hidden_states, scores, indices)
    if self.enable_moe_load_balance:
        self.load_balancer.update_load(tokens_per_expert)
    expert_output, mlp_bias = self.experts(dispatched_input, tokens_per_expert)
    output, mlp_bias = self.token_dispatcher.token_unpermutation(
        expert_output, scores, indices, global_local_map, mlp_bias)
    return output, mlp_bias

Note the rebinding: the `scores`/`indices` passed to `token_unpermutation`
are the ones returned by `token_permutation`. -/
def MoELayer.forward {H S I D C G O B : Type}
    (comps : MoEComponents H S I D C G O B) (enable_moe_load_balance : Bool)
    (hidden_states : H) : (O × B) × List (Event H S I D C G O B) :=
  let r := comps.router hidden_states
  let scores := r.1
  let indices := r.2
  let t := comps.token_permutation hidden_states scores indices
  let dispatched_input := t.1
  let tokens_per_expert := t.2.1
  let scores2 := t.2.2.1
  let indices2 := t.2.2.2.1
  let global_local_map := t.2.2.2.2
  let lbEvents := if enable_moe_load_balance then [Event.update_load tokens_per_expert] else []
  let e := comps.experts dispatched_input tokens_per_expert
  let expert_output := e.1
  let mlp_bias := e.2
  let u := comps.token_unpermutation expert_output scores2 indices2 global_local_map mlp_bias
  ((u.1, u.2),
    [Event.router hidden_states, Event.token_permutation hidden_states scores indices]
      ++ lbEvents
      ++ [Event.experts dispatched_input tokens_per_expert,
          Event.token_unpermutation expert_output scores2 indices2 global_local_map mlp_bias])

/-! ### Module-tree traversals (`apply_load_balance` lines 126-140,
`print_token_dist` lines 143-153)

A PyTorch module tree is modelled as a tree whose nodes either are
`MoELayer` instances (carrying their `enable_moe_load_balance` flag) or some
other module; `id` identifies the instance.  `named_children()` yields the
direct children.  The traversals record, in order, the `id`s of the layers
on which the hook (`balance_load` resp. `print_token_dist`) is invoked. -/

inductive ModuleTree where
  | moeLayer (id : Nat) (enable_moe_load_balance : Bool) (children : List ModuleTree)
  | other (id : Nat) (children : List ModuleTree)

/-- The direct children of a module (`module.named_children()`). -/
def ModuleTree.childrenOf : ModuleTree → List ModuleTree
  | ModuleTree.moeLayer _ _ ch => ch
  | ModuleTree.other _ ch => ch

mutual

/-- Model of `_apply_recursive` in `apply_load_balance` (lines 131-136): for each
child, if it is a `MoELayer`, call `sub_module.load_balancer.balance_load(optim)`
(the `enable` flag check on line 134 is commented out in the source, so the
call is unconditional); then recurse into the child.  Returns the ids of the
layers whose `balance_load` is invoked, in call order. -/
def applyLBrec : ModuleTree → List Nat
  | ModuleTree.moeLayer _ _ ch => applyLBlist ch
  | ModuleTree.other _ ch => applyLBlist ch

/-- The `for _, sub_module in module.named_children()` loop of
`apply_load_balance._apply_recursive`. -/
def applyLBlist : List ModuleTree → List Nat
  | [] => []
  | c :: cs =>
      (match c with
        | ModuleTree.moeLayer i _ _ => [i]
        | ModuleTree.other _ _ => []) ++ applyLBrec c ++ applyLBlist cs

end

/-- Model of `apply_load_balance(model, optim)` (lines 126-140): `_apply_recursive(model[0])`.
Indexing an empty container raises, modelled by `Option.none`.  (The
`torch.cuda.empty_cache()` calls around the traversal have no effect on which
layers are visited.) -/
def applyLoadBalance (model : List ModuleTree) : Option (List Nat) :=
  match model with
  | [] => Option.none
  | m :: _ => Option.some (applyLBrec m)

mutual

/-- Model of `_apply_recursive` in `print_token_dist` (lines 148-152): for each child,
if it is a `MoELayer`, call `sub_module.load_balancer.print_token_dist(step)`;
then recurse into the child. -/
def printTDrec : ModuleTree → List Nat
  | ModuleTree.moeLayer _ _ ch => printTDlist ch
  | ModuleTree.other _ ch => printTDlist ch

/-- The `for _, sub_module in module.named_children()` loop of
`print_token_dist._apply_recursive`. -/
def printTDlist : List ModuleTree → List Nat
  | [] => []
  | c :: cs =>
      (match c with
        | ModuleTree.moeLayer i _ _ => [i]
        | ModuleTree.other _ _ => []) ++ printTDrec c ++ printTDlist cs

end

/-- Model of `print_token_dist(model, step)` (lines 143-153): `_apply_recursive(model[0])`.
The traversal (and hence which layers get the hook) does not depend on `step`. -/
def printTokenDist (model : List ModuleTree) : Option (List Nat) :=
  match model with
  | [] => Option.none
  | m :: _ => Option.some (printTDrec m)

mutual

/-- All `MoELayer` instances in a module tree (the node itself included),
in depth-first order. -/
def moeIdsIn : ModuleTree → List Nat
  | ModuleTree.moeLayer i _ ch => i :: moeIdsList ch
  | ModuleTree.other _ ch => moeIdsList ch

/-- All `MoELayer` instances in a forest, in depth-first order. -/
def moeIdsList : List ModuleTree → List Nat
  | [] => []
  | c :: cs => moeIdsIn c ++ moeIdsList cs

end

/-- All `MoELayer` instances reachable anywhere in the model container. -/
def moeIdsInModel (model : List ModuleTree) : List Nat :=
  moeIdsList model

mutual

/-- Replace every `MoELayer`'s `enable_moe_load_balance` flag by `b`
(what toggling `args.load_balance_interval` between absent and present does
to the constructed layers). -/
def setEnable (b : Bool) : ModuleTree → ModuleTree
  | ModuleTree.moeLayer i _ ch => ModuleTree.moeLayer i b (setEnableList b ch)
  | ModuleTree.other i ch => ModuleTree.other i (setEnableList b ch)

/-- The map of `setEnable` over a forest. -/
def setEnableList (b : Bool) : List ModuleTree → List ModuleTree
  | [] => []
  | c :: cs => setEnable b c :: setEnableList b cs

end

/-! ### Helper lemmas -/

mutual

/-- The `balance_load` traversal visits exactly the `MoELayer` strict
descendants, in depth-first order. -/
theorem applyLBrec_eq_moeIds : ∀ m : ModuleTree, applyLBrec m = moeIdsList m.childrenOf
  | ModuleTree.moeLayer _ _ ch => by
      simp [applyLBrec, ModuleTree.childrenOf, applyLBlist_eq_moeIds ch]
  | ModuleTree.other _ ch => by
      simp [applyLBrec, ModuleTree.childrenOf, applyLBlist_eq_moeIds ch]

/-- The forest version of `applyLBrec_eq_moeIds`. -/
theorem applyLBlist_eq_moeIds : ∀ ms : List ModuleTree, applyLBlist ms = moeIdsList ms
  | [] => rfl
  | c :: cs => by
      cases c with
      | moeLayer i e ch =>
          simp [applyLBlist, moeIdsList, moeIdsIn,
            applyLBrec_eq_moeIds (ModuleTree.moeLayer i e ch),
            applyLBlist_eq_moeIds cs, ModuleTree.childrenOf]
      | other i ch =>
          simp [applyLBlist, moeIdsList, moeIdsIn,
            applyLBrec_eq_moeIds (ModuleTree.other i ch),
            applyLBlist_eq_moeIds cs, ModuleTree.childrenOf]

end

mutual

/-- The `print_token_dist` traversal visits exactly the `MoELayer` strict
descendants, in depth-first order. -/
theorem printTDrec_eq_moeIds : ∀ m : ModuleTree, printTDrec m = moeIdsList m.childrenOf
  | ModuleTree.moeLayer _ _ ch => by
      simp [printTDrec, ModuleTree.childrenOf, printTDlist_eq_moeIds ch]
  | ModuleTree.other _ ch => by
      simp [printTDrec, ModuleTree.childrenOf, printTDlist_eq_moeIds ch]

/-- The forest version of `printTDrec_eq_moeIds`. -/
theorem printTDlist_eq_moeIds : ∀ ms : List ModuleTree, printTDlist ms = moeIdsList ms
  | [] => rfl
  | c :: cs => by
      cases c with
      | moeLayer i e ch =>
          simp [printTDlist, moeIdsList, moeIdsIn,
            printTDrec_eq_moeIds (ModuleTree.moeLayer i e ch),
            printTDlist_eq_moeIds cs, ModuleTree.childrenOf]
      | other i ch =>
          simp [printTDlist, moeIdsList, moeIdsIn,
            printTDrec_eq_moeIds (ModuleTree.other i ch),
            printTDlist_eq_moeIds cs, ModuleTree.childrenOf]

end

mutual

/-- Which layers receive `balance_load` does not depend on any layer's
`enable_moe_load_balance` flag. -/
theorem applyLBrec_setEnable :
    ∀ (b : Bool) (m : ModuleTree), applyLBrec (setEnable b m) = applyLBrec m
  | b, ModuleTree.moeLayer _ _ ch => by
      simp [setEnable, applyLBrec, applyLBlist_setEnable b ch]
  | b, ModuleTree.other _ ch => by
      simp [setEnable, applyLBrec, applyLBlist_setEnable b ch]

/-- The forest version of `applyLBrec_setEnable`. -/
theorem applyLBlist_setEnable :
    ∀ (b : Bool) (ms : List ModuleTree), applyLBlist (setEnableList b ms) = applyLBlist ms
  | _, [] => rfl
  | b, c :: cs => by
      have hc := applyLBrec_setEnable b c
      have hcs := applyLBlist_setEnable b cs
      cases c with
      | moeLayer i e ch =>
          simp only [setEnable] at hc
          simp [setEnableList, setEnable, applyLBlist, hc, hcs]
      | other i ch =>
          simp only [setEnable] at hc
          simp [setEnableList, setEnable, applyLBlist, hc, hcs]

end

/-- The `enable_moe_load_balance` flag of a successfully constructed layer is
exactly `load_balance_interval is not None`. -/
theorem moELayerInit_enable (E W r : Nat) (g : Bool) (s : Submodules) (iv : Option Nat)
    (st : MoELayerState) (hinit : moELayerInit E W r g s iv = Option.some st) :
    st.enable_moe_load_balance = iv.isSome := by
  unfold moELayerInit at hinit
  cases hb : baseMoELayerInit E W r with
  | none => rw [hb] at hinit; exact absurd hinit (by simp)
  | some base =>
      rw [hb] at hinit
      cases g with
      | true =>
          simp only [if_true] at hinit
          rw [Option.some.injEq] at hinit
          subst hinit
          rfl
      | false =>
          simp only [Bool.false_eq_true, if_false] at hinit
          cases hs : Submodules.isMLPSubmodules s with
          | true =>
              rw [hs] at hinit
              simp only [if_true] at hinit
              rw [Option.some.injEq] at hinit
              subst hinit
              rfl
          | false =>
              rw [hs] at hinit
              exact absurd hinit (by simp)

/-- Concrete collaborator functions used to instantiate theorems about
`MoELayer.forward`; the dispatcher returns different scores than the router
did, and the unpermutation output depends on the scores it receives. -/
def demoComponents : MoEComponents Nat Nat Nat Nat Nat Nat Nat Nat where
  router := fun _ => (0, 0)
  token_permutation := fun h s i => (h, 0, s + 1, i, 0)
  experts := fun d c => (d, c)
  token_unpermutation := fun _ s _ _ b => (s, b)

/-! ### Claim theorems -/

/-- C3: for every global expert count `E`, expert-parallel world size `W`
with `E` divisible by `W`, and rank `r < W`, construction computes
`num_local_experts = E / W` and `local_expert_indices` equal to the
contiguous ascending range `[r * E/W, (r+1) * E/W)`, every index being a
valid global expert id (`< E`).  The partition functions are pure, so the
computation is deterministic and changes no other state. -/
theorem partition_contiguous (E W r : Nat) (hdvd : E % W = 0) (hr : r < W) :
    num_local_experts E W = E / W ∧
    local_expert_indices E W r = List.range' (r * (E / W)) (E / W) ∧
    ∀ x ∈ local_expert_indices E W r,
      r * (E / W) ≤ x ∧ x < (r + 1) * (E / W) ∧ x < E := by
  refine ⟨rfl, ?_, ?_⟩
  · rw [local_expert_indices, List.range'_eq_map_range]
    rfl
  · intro x hx
    rw [local_expert_indices, List.mem_map] at hx
    obtain ⟨i, hi, rfl⟩ := hx
    rw [List.mem_range] at hi
    have h1 : r * (E / W) ≤ r * num_local_experts E W + i := Nat.le_add_right _ _
    have h2 : r * num_local_experts E W + i < (r + 1) * (E / W) := by
      rw [Nat.succ_mul]
      exact Nat.add_lt_add_left hi _
    refine ⟨h1, h2, lt_of_lt_of_le h2 ?_⟩
    calc (r + 1) * (E / W) ≤ W * (E / W) := Nat.mul_le_mul_right _ hr
    _ = E := Nat.mul_div_cancel' (Nat.dvd_of_mod_eq_zero hdvd)

/-- Witness for `partition_contiguous` at `E = 8`, `W = 2`, `r = 1`. -/
theorem partition_contiguous_witness :
    8 % 2 = 0 ∧ 1 < 2 ∧
      (num_local_experts 8 2 = 8 / 2 ∧
        local_expert_indices 8 2 1 = List.range' (1 * (8 / 2)) (8 / 2) ∧
        ∀ x ∈ local_expert_indices 8 2 1,
          1 * (8 / 2) ≤ x ∧ x < (1 + 1) * (8 / 2) ∧ x < 8) :=
  ⟨by decide, by decide, partition_contiguous 8 2 1 (by decide) (by decide)⟩

/-- C4: when the global expert count is not evenly divisible by the
expert-parallel world size, layer construction fails (the assert on line 43
fires inside `BaseMoELayer.__init__` which `MoELayer.__init__` runs first),
so no layer — partial or otherwise — is returned, for every choice of the
remaining configuration. -/
theorem init_fails_when_not_divisible (E W r : Nat) (g : Bool) (s : Submodules)
    (iv : Option Nat) (h : ¬ E % W = 0) :
    moELayerInit E W r g s iv = Option.none ∧
    baseMoELayerInit E W r = Option.none := by
  have hb : baseMoELayerInit E W r = Option.none := by
    rw [baseMoELayerInit, if_neg h]
  refine ⟨?_, hb⟩
  rw [moELayerInit, hb]

/-- Witness for `init_fails_when_not_divisible` at `E = 5`, `W = 2`. -/
theorem init_fails_when_not_divisible_witness :
    ¬ 5 % 2 = 0 ∧
      (moELayerInit 5 2 0 true Submodules.noneValue Option.none = Option.none ∧
        baseMoELayerInit 5 2 0 = Option.none) :=
  ⟨by decide, init_fails_when_not_divisible 5 2 0 true Submodules.noneValue
    Option.none (by decide)⟩

/-- C7: when the grouped-execution flag is off and the supplied submodules
value is not an `MLPSubmodules` instance (in particular the default `None`),
`MoELayer.__init__` fails at the `isinstance` assert on line 76 (or already
at the divisibility assert), so construction never returns a layer and no
forward pass can run. -/
theorem init_fails_on_inconsistent_submodules (E W r : Nat) (s : Submodules)
    (iv : Option Nat) (hs : Submodules.isMLPSubmodules s = false) :
    moELayerInit E W r false s iv = Option.none := by
  rw [moELayerInit]
  cases hb : baseMoELayerInit E W r with
  | none => rfl
  | some base => simp [hs]

/-- Witness for `init_fails_on_inconsistent_submodules` at `E = 4`, `W = 2`,
`submodules = None`. -/
theorem init_fails_on_inconsistent_submodules_witness :
    Submodules.isMLPSubmodules Submodules.noneValue = false ∧
      moELayerInit 4 2 0 false Submodules.noneValue Option.none = Option.none :=
  ⟨by decide, init_fails_on_inconsistent_submodules 4 2 0 Submodules.noneValue
    Option.none (by decide)⟩

/-- C2: for every input tensor, `MoELayer.forward` runs its sub-operations
strictly sequentially in the order router call, token permutation, then
(only when load balancing is enabled) `update_load`, then expert
computation, then token unpermutation — the recorded trace is exactly that
sequence, each call consuming the previous call's outputs — and the returned
value is the `(output, bias)` pair produced by the unpermutation step. -/
theorem forward_sequence {H S I D C G O B : Type}
    (comps : MoEComponents H S I D C G O B) (enable_moe_load_balance : Bool) (h : H) :
    ∃ scores indices dispatched_input tokens_per_expert scores2 indices2
      global_local_map expert_output mlp_bias,
      comps.router h = (scores, indices) ∧
      comps.token_permutation h scores indices =
        (dispatched_input, tokens_per_expert, scores2, indices2, global_local_map) ∧
      comps.experts dispatched_input tokens_per_expert = (expert_output, mlp_bias) ∧
      MoELayer.forward comps enable_moe_load_balance h =
        (comps.token_unpermutation expert_output scores2 indices2 global_local_map mlp_bias,
          [Event.router h, Event.token_permutation h scores indices]
            ++ (if enable_moe_load_balance then [Event.update_load tokens_per_expert] else [])
            ++ [Event.experts dispatched_input tokens_per_expert,
                Event.token_unpermutation expert_output scores2 indices2
                  global_local_map mlp_bias]) := by
  refine ⟨(comps.router h).1, (comps.router h).2,
    (comps.token_permutation h (comps.router h).1 (comps.router h).2).1,
    (comps.token_permutation h (comps.router h).1 (comps.router h).2).2.1,
    (comps.token_permutation h (comps.router h).1 (comps.router h).2).2.2.1,
    (comps.token_permutation h (comps.router h).1 (comps.router h).2).2.2.2.1,
    (comps.token_permutation h (comps.router h).1 (comps.router h).2).2.2.2.2,
    (comps.experts (comps.token_permutation h (comps.router h).1 (comps.router h).2).1
      (comps.token_permutation h (comps.router h).1 (comps.router h).2).2.1).1,
    (comps.experts (comps.token_permutation h (comps.router h).1 (comps.router h).2).1
      (comps.token_permutation h (comps.router h).1 (comps.router h).2).2.1).2,
    rfl, rfl, rfl, rfl⟩

/-- C5: no forward pass performs a rebalancing: the trace of every
`MoELayer.forward` call contains no `balance_load` invocation, whether or
not load balancing is enabled.  Rebalancing happens only through the
external `apply_load_balance` hook (modelled by `applyLoadBalance`), which
runs between forward passes. -/
theorem forward_never_calls_balance_load {H S I D C G O B : Type}
    (comps : MoEComponents H S I D C G O B) (enable_moe_load_balance : Bool) (h : H) :
    (MoELayer.forward comps enable_moe_load_balance h).2.filter Event.isBalanceLoad = [] := by
  cases enable_moe_load_balance <;>
    simp [MoELayer.forward, Event.isBalanceLoad]

/-- C9: the scores and indices `MoELayer.forward` passes to
`token_unpermutation` are the ones returned by `token_permutation` (the
third and fourth components of its result), not the router's original
outputs: the layer output equals `token_unpermutation` applied to the
dispatcher-returned scores/indices.  The second conjunct shows the
distinction is observable: there are components for which using the
router's original scores instead would produce a different output. -/
theorem forward_rebinds_scores_indices {H S I D C G O B : Type}
    (comps : MoEComponents H S I D C G O B) (enable_moe_load_balance : Bool) (h : H) :
    ((MoELayer.forward comps enable_moe_load_balance h).1 =
      comps.token_unpermutation
        (comps.experts (comps.token_permutation h (comps.router h).1 (comps.router h).2).1
          (comps.token_permutation h (comps.router h).1 (comps.router h).2).2.1).1
        (comps.token_permutation h (comps.router h).1 (comps.router h).2).2.2.1
        (comps.token_permutation h (comps.router h).1 (comps.router h).2).2.2.2.1
        (comps.token_permutation h (comps.router h).1 (comps.router h).2).2.2.2.2
        (comps.experts (comps.token_permutation h (comps.router h).1 (comps.router h).2).1
          (comps.token_permutation h (comps.router h).1 (comps.router h).2).2.1).2) ∧
    ∃ (c : MoEComponents Nat Nat Nat Nat Nat Nat Nat Nat) (h0 : Nat),
      (MoELayer.forward c false h0).1 ≠
        c.token_unpermutation
          (c.experts (c.token_permutation h0 (c.router h0).1 (c.router h0).2).1
            (c.token_permutation h0 (c.router h0).1 (c.router h0).2).2.1).1
          (c.router h0).1 (c.router h0).2
          (c.token_permutation h0 (c.router h0).1 (c.router h0).2).2.2.2.2
          (c.experts (c.token_permutation h0 (c.router h0).1 (c.router h0).2).1
            (c.token_permutation h0 (c.router h0).1 (c.router h0).2).2.1).2 := by
  refine ⟨rfl, demoComponents, 0, ?_⟩
  decide

/-- C1 counterexample: a model whose first element has one child, a
`MoELayer` whose `enable_moe_load_balance` flag is `false` (that is, the
load-balance interval was absent at construction, see `moELayerInit_enable`).
The claim says no load-balancing operation — including `balance_load` via the
external hook — is ever applied to such a layer; but `apply_load_balance`
invokes `balance_load` on it anyway (the flag check on line 134 of the
source is commented out), as the second conjunct shows: the hook list is
`[1]`, the disabled layer's id. -/
theorem balance_load_applied_to_disabled_layer :
    (moELayerInit 2 1 0 true Submodules.noneValue Option.none =
      Option.some
        { num_local_experts := 2
          local_expert_indices := [0, 1]
          expertsKind := ExpertsKind.grouped
          enable_moe_load_balance := false }) ∧
    applyLoadBalance [ModuleTree.other 0 [ModuleTree.moeLayer 1 false []]] =
      Option.some [1] := by
  exact ⟨by decide, rfl⟩

/-- C1 as amended: when the load-balance interval is absent (`None`), the
constructed layer's `enable_moe_load_balance` flag is `false` and
`update_load` is then never called during a forward pass; however the
external `apply_load_balance` hook still invokes `balance_load` on the layer
— which layers receive `balance_load` is independent of every layer's
enable flag (the check is commented out in the source). -/
theorem disabled_interval_stops_update_load_only {H S I D C G O B : Type}
    (comps : MoEComponents H S I D C G O B) (h : H)
    (E W r : Nat) (g : Bool) (s : Submodules) (st : MoELayerState)
    (hinit : moELayerInit E W r g s Option.none = Option.some st)
    (b : Bool) (m : ModuleTree) :
    (MoELayer.forward comps st.enable_moe_load_balance h).2.filter Event.isUpdateLoad = [] ∧
    applyLBrec (setEnable b m) = applyLBrec m := by
  have he : st.enable_moe_load_balance = false :=
    moELayerInit_enable E W r g s Option.none st hinit
  refine ⟨?_, applyLBrec_setEnable b m⟩
  rw [he]
  simp [MoELayer.forward, Event.isUpdateLoad]

/-- Witness for `disabled_interval_stops_update_load_only` at concrete
components, a concrete successfully-constructed layer and a concrete tree. -/
theorem disabled_interval_stops_update_load_only_witness :
    (MoELayer.forward demoComponents false 5).2.filter Event.isUpdateLoad = [] ∧
    applyLBrec (setEnable true (ModuleTree.moeLayer 1 false [])) =
      applyLBrec (ModuleTree.moeLayer 1 false []) := by
  exact disabled_interval_stops_update_load_only demoComponents 5 2 1 0 true
    Submodules.noneValue
    { num_local_experts := 2
      local_expert_indices := [0, 1]
      expertsKind := ExpertsKind.grouped
      enable_moe_load_balance := false }
    (by decide) true (ModuleTree.moeLayer 1 false [])

/-- C8 counterexample: a model container with two elements whose second
element is a `MoELayer` (id 1).  That layer is reachable in the module
forest, yet neither `apply_load_balance` nor `print_token_dist` ever invokes
its hook: both traverse only `model[0]`, so the invocation list is empty
rather than containing id 1 exactly once. -/
theorem hook_misses_layer_outside_first_element :
    moeIdsInModel [ModuleTree.other 0 [], ModuleTree.moeLayer 1 true []] = [1] ∧
    applyLoadBalance [ModuleTree.other 0 [], ModuleTree.moeLayer 1 true []] =
      Option.some [] ∧
    printTokenDist [ModuleTree.other 0 [], ModuleTree.moeLayer 1 true []] =
      Option.some [] := ⟨rfl, rfl, rfl⟩

/-- C8 as amended: for every module tree, `apply_load_balance` invokes the
load-balance hook, and `print_token_dist` the diagnostic hook, exactly once
on each `MoELayer` instance that is a strict descendant of the container's
first element `model[0]` — the invocation list equals the depth-first list
of those instances, so within that subtree no MoE layer is skipped and none
is visited twice; `MoELayer` instances in other container elements (and
`model[0]` itself, if it is a `MoELayer`) are not visited. -/
theorem hooks_hit_strict_descendants_of_first_exactly_once (m : ModuleTree)
    (rest : List ModuleTree) :
    applyLoadBalance (m :: rest) = Option.some (moeIdsList m.childrenOf) ∧
    printTokenDist (m :: rest) = Option.some (moeIdsList m.childrenOf) := by
  constructor
  · rw [applyLoadBalance, applyLBrec_eq_moeIds m]
  · rw [printTokenDist, printTDrec_eq_moeIds m]

/-- C10: both traversals look only at the first element of the model
container — the invocation lists do not depend on the remaining elements,
so `MoELayer` instances there are never visited — while the recursion does
continue into the children of a matched `MoELayer` exactly as for any other
module, so nested MoE layers inside one are visited; the final conjunct
shows this concretely: a `MoELayer` (id 2) nested inside another `MoELayer`
(id 1) gets the hook right after its parent. -/
theorem traversal_first_element_only_and_recurses_into_moe (m : ModuleTree)
    (rest rest2 : List ModuleTree) (i : Nat) (e : Bool) (ch : List ModuleTree) :
    applyLoadBalance (m :: rest) = applyLoadBalance (m :: rest2) ∧
    printTokenDist (m :: rest) = printTokenDist (m :: rest2) ∧
    applyLBrec (ModuleTree.moeLayer i e ch) = applyLBrec (ModuleTree.other i ch) ∧
    printTDrec (ModuleTree.moeLayer i e ch) = printTDrec (ModuleTree.other i ch) ∧
    applyLoadBalance
        [ModuleTree.other 0 [ModuleTree.moeLayer 1 true [ModuleTree.moeLayer 2 true []]]] =
      Option.some [1, 2] ∧
    printTokenDist
        [ModuleTree.other 0 [ModuleTree.moeLayer 1 true [ModuleTree.moeLayer 2 true []]]] =
      Option.some [1, 2] := by
  exact ⟨rfl, rfl, rfl, rfl, by decide, by decide⟩
